import Mathlib

/-!
Verification of the decor pricing/ranking pipeline of the WindowsAppProject
repository, a shallow embedding of `UI/graphs/decor_price_model.py`,
`UI/decor_price/decor_price_model.py` and the relevant fragment of
`server/database/query_api.py`.

Modelling conventions:
* Python scalar values (the JSON-ish payloads these models receive) are the
  inductive type `Val`; a Python `dict` holding a catalog record is the
  structure `Item` whose fields are the keys the source code ever reads or
  writes; a field of value `Option.none` models an *absent* key, while
  `some Val.none` models a key present with value `None`.
* Python numbers (int/float) are modelled as `ℚ`; the claims under study do
  not depend on binary floating-point rounding.
* A Python operation that can raise is embedded with `Option`/`Except`
  (`Option.none` / `.error` = an exception escaped).
-/

/-- A Python scalar value as it appears in the JSON payloads: `None`, a bool,
a number (int/float, modelled as `ℚ`) or a string. -/
inductive Val where
  | none
  | bool (b : Bool)
  | num (q : ℚ)
  | str (s : String)
deriving DecidableEq

/-- Python truthiness (`bool(x)`) for the scalar values we model:
`None` is falsy, `0` is falsy, `""` is falsy. -/
def truthy : Val → Bool
  | Val.none => false
  | Val.bool b => b
  | Val.num q => q != 0
  | Val.str s => s != ""

/-- Python `a or b`: returns `a` when `a` is truthy, else `b`. -/
def pyOr (a b : Val) : Val := if truthy a then a else b

/-- A catalog record (`dict`) restricted to the keys the decor price models
read or write.  `Option.none` = key absent; `some Val.none` = key present
holding Python `None`. -/
structure Item where
  DecorId : Option Val
  decorId : Option Val
  id : Option Val
  DecorName : Option Val
  Name : Option Val
  Category : Option Val
  Region : Option Val
  PhotoUrl : Option Val
  Available : Option Val
  PriceSmall : Option Val
  PriceMedium : Option Val
  PriceLarge : Option Val
  MinPrice : Option Val
  MidPrice : Option Val
deriving DecidableEq

/-- The empty dict (no keys). -/
def Item.empty : Item :=
  ⟨Option.none, Option.none, Option.none, Option.none, Option.none,
   Option.none, Option.none, Option.none, Option.none, Option.none,
   Option.none, Option.none, Option.none, Option.none⟩

/-- `it.get(key)`: the value when the key is present, Python `None` otherwise. -/
def pyGet (o : Option Val) : Val := o.getD Val.none

/-- Digit-list value (helper for the numeric-string parsers). -/
def digitsVal (l : List Char) : ℕ :=
  l.foldl (fun a c => a * 10 + (c.toNat - 48)) 0

/-- Strip surrounding blanks the way Python's numeric constructors do before
parsing a string.  (Only the space character is modelled; no claim uses other
whitespace.) -/
def trimChars (l : List Char) : List Char :=
  ((l.dropWhile (fun c => c = ' ')).reverse.dropWhile (fun c => c = ' ')).reverse

/-- Split a character list at its first `.`, if any. -/
def breakDot : List Char → List Char × Option (List Char)
  | [] => ([], Option.none)
  | c :: cs =>
    if c = '.' then ([], some cs)
    else
      let (a, b) := breakDot cs
      (c :: a, b)

/-- Parse a decimal numeral according to Python `float(str)`: optional sign,
digits with at most one `.`, at least one digit overall.  (Scientific
notation, `inf`/`nan` and underscores are not modelled; no claim uses them.) -/
def parseFloat (s : String) : Option ℚ :=
  let cs := trimChars s.data
  let (sg, cs2) : ℚ × List Char :=
    match cs with
    | '-' :: r => (-1, r)
    | '+' :: r => (1, r)
    | _ => (1, cs)
  match breakDot cs2 with
  | (ip, Option.none) =>
    if !ip.isEmpty && ip.all (fun c => c.isDigit) then some (sg * digitsVal ip)
    else Option.none
  | (ip, some fpRaw) =>
    match breakDot fpRaw with
    | (_, some _) => Option.none
    | (fp, Option.none) =>
      if (ip.isEmpty && fp.isEmpty) then Option.none
      else if ip.all (fun c => c.isDigit) && fp.all (fun c => c.isDigit) then
        some (sg * ((digitsVal ip : ℚ) + (digitsVal fp : ℚ) / (10 : ℚ) ^ fp.length))
      else Option.none

/-- The Python builtin `float(x)`; `Option.none` models a raised exception
(`TypeError` on `None`, `ValueError` on a malformed string). -/
def pyFloat : Val → Option ℚ
  | Val.none => Option.none
  | Val.bool b => some (if b then 1 else 0)
  | Val.num q => some q
  | Val.str s => parseFloat s

/-- Parse an integer numeral according to Python `int(str)`. -/
def parseIntStr (s : String) : Option ℤ :=
  let cs := trimChars s.data
  let digits : List Char → Option ℕ := fun l =>
    if !l.isEmpty && l.all (fun c => c.isDigit) then some (digitsVal l) else Option.none
  match cs with
  | '-' :: r => (digits r).map (fun n => -(n : ℤ))
  | '+' :: r => (digits r).map (fun n => (n : ℤ))
  | _ => (digits cs).map (fun n => (n : ℤ))

/-- The Python builtin `int(x)`; `Option.none` models a raised exception.
On a number it truncates toward zero. -/
def pyInt : Val → Option ℤ
  | Val.none => Option.none
  | Val.bool b => some (if b then 1 else 0)
  | Val.num q => some (q.num.tdiv (q.den : ℤ))
  | Val.str s => parseIntStr s

/-- The Python builtin `str(x)` for the values we model.  (CPython formats
floats differently; no claim depends on it.) -/
def pyStr : Val → String
  | Val.none => "None"
  | Val.bool b => if b then "True" else "False"
  | Val.num q => if q.den = 1 then toString q.num else toString q
  | Val.str s => s

/-- The nested helper `_to_float` shared by `_ensure_midprice` and
`_normalize_item` (both files):
`return None if x is None else float(x)` inside `try/except` returning
`None` — so an exception from `float` also degrades to `None`. -/
def to_float (x : Val) : Option ℚ :=
  if x = Val.none then Option.none else pyFloat x

/-- Re-inject a coerced price into the dict:
the field is stored as `None` or as a float. -/
def ofFloatOpt : Option ℚ → Val
  | Option.none => Val.none
  | some q => Val.num q

/-- `DecorPriceModel._ensure_midprice` (UI/graphs/decor_price_model.py,
lines 18-48).  Computes the mid price by the source's `if/elif` chain,
writes it back into the dict (`it["MidPrice"] = float(mid or 0.0)`) and
returns it.  Result: (returned float, the mutated dict). -/
def ensure_midprice (it : Item) : ℚ × Item :=
  let p_s := to_float (pyGet it.PriceSmall)
  let p_m := to_float (pyGet it.PriceMedium)
  let p_l := to_float (pyGet it.PriceLarge)
  let mid : ℚ :=
    match p_m, p_s, p_l with
    | some m, _, _ => m
    | Option.none, some s, some l => (s + l) / 2
    | Option.none, some s, Option.none => s
    | Option.none, Option.none, some l => l
    | Option.none, Option.none, Option.none =>
      let mp := to_float (pyGet it.MidPrice)
      let mn := to_float (pyGet it.MinPrice)
      match mp with
      | some m => m
      | Option.none =>
        match mn with
        | some m => m
        | Option.none => 0
  -- `float(mid or 0.0)`: `mid` is falsy exactly when it equals 0
  let stored : ℚ := if mid = 0 then 0 else mid
  (stored, { it with MidPrice := some (Val.num stored) })

/-- `bool(it.get("Available", True))`: the default `True` applies only when
the key is absent; a key present with `None` is falsy. -/
def availDefault : Option Val → Bool
  | Option.none => true
  | some v => truthy v

/-- The id-alias truthiness chain
`it.get("DecorId") or it.get("decorId") or it.get("id")` used by
`_normalize_item` and by both `_fallback_fetch_and_enrich` loops. -/
def idChain (it : Item) : Val :=
  pyOr (pyGet it.DecorId) (pyOr (pyGet it.decorId) (pyGet it.id))

/-- `DecorPriceModel._normalize_item` (UI/graphs/decor_price_model.py,
lines 50-84): coerce id/name/available, coerce the five price fields with
`_to_float`, then `_ensure_midprice`. -/
def normalize_item (it : Item) : Item :=
  -- id: `decor_id = it.get("DecorId") or it.get("decorId") or it.get("id")`
  let decor_id := idChain it
  -- `if decor_id is not None: try: it["DecorId"] = int(decor_id) except: pass`
  let it1 : Item :=
    if decor_id = Val.none then it
    else
      match pyInt decor_id with
      | some n => { it with DecorId := some (Val.num (n : ℚ)) }
      | Option.none => it
  -- `name = it.get("DecorName") or it.get("Name") or ""`; `it["DecorName"] = str(name)`
  let name := pyOr (pyGet it1.DecorName) (pyOr (pyGet it1.Name) (Val.str ""))
  let it2 : Item := { it1 with DecorName := some (Val.str (pyStr name)) }
  -- `it["Available"] = bool(it.get("Available", True))`
  let it3 : Item := { it2 with Available := some (Val.bool (availDefault it2.Available)) }
  -- the five `_to_float` coercions
  let it4 : Item :=
    { it3 with
      PriceSmall := some (ofFloatOpt (to_float (pyGet it3.PriceSmall)))
      PriceMedium := some (ofFloatOpt (to_float (pyGet it3.PriceMedium)))
      PriceLarge := some (ofFloatOpt (to_float (pyGet it3.PriceLarge)))
      MinPrice := some (ofFloatOpt (to_float (pyGet it3.MinPrice)))
      MidPrice := some (ofFloatOpt (to_float (pyGet it3.MidPrice))) }
  -- `self._ensure_midprice(it)`; the function returns the mutated dict
  (ensure_midprice it4).2

/-- The spec's §4.2 precedence chain, written from the spec's words:
priceMedium; else average of priceSmall and priceLarge when both present;
else the single one of priceSmall/priceLarge present; else the pre-existing
midPrice; else minPrice; else 0.0.  ("Present" = the coercion of the raw
field yields a number.) -/
def specMidPriceChain (it : Item) : ℚ :=
  match to_float (pyGet it.PriceMedium) with
  | some m => m
  | Option.none =>
    match to_float (pyGet it.PriceSmall), to_float (pyGet it.PriceLarge) with
    | some s, some l => (s + l) / 2
    | some s, Option.none => s
    | Option.none, some l => l
    | Option.none, Option.none =>
      match to_float (pyGet it.MidPrice) with
      | some m => m
      | Option.none =>
        match to_float (pyGet it.MinPrice) with
        | some m => m
        | Option.none => 0

/-- The sort key of `_postprocess_list` (graphs file, line 94):
`float(d.get("MidPrice") or 0)`.  (`getD 0` is never exercised: the sort runs
on normalized items whose `MidPrice` is always a float.) -/
def keyPrice (d : Item) : ℚ :=
  (pyFloat (pyOr (pyGet d.MidPrice) (Val.num 0))).getD 0

/-- The name component of the sort key: `str(d.get("DecorName") or "")`. -/
def keyName (d : Item) : String :=
  pyStr (pyOr (pyGet d.DecorName) (Val.str ""))

/-- Python string comparison: lexicographic on the code points. -/
def charsLe : List Char → List Char → Bool
  | [], _ => true
  | _ :: _, [] => false
  | a :: as, b :: bs =>
    if a.toNat < b.toNat then true
    else if b.toNat < a.toNat then false
    else charsLe as bs

/-- `s <= t` for Python strings. -/
def strLe (s t : String) : Bool := charsLe s.data t.data

/-- The total preorder `list.sort(key=...)` sorts by: the Python tuple key
`(float(d.get("MidPrice") or 0), str(d.get("DecorName") or ""))` compared
lexicographically — price first, name as the tie-break. -/
def ItemLeP (a b : Item) : Prop :=
  keyPrice a < keyPrice b ∨ (keyPrice a = keyPrice b ∧ strLe (keyName a) (keyName b) = true)

instance : DecidableRel ItemLeP := fun _ _ =>
  inferInstanceAs (Decidable (_ ∨ _))

instance : IsTotal Item ItemLeP :=
  ⟨by
    have aux : ∀ x y : List Char, charsLe x y = true ∨ charsLe y x = true := by
      intro x
      induction x with
      | nil => intro y; exact Or.inl rfl
      | cons a as ih =>
        intro y
        cases y with
        | nil => exact Or.inr rfl
        | cons b bs =>
          simp only [charsLe]
          rcases ih bs with h | h <;> split_ifs <;> simp [h]
    intro a b
    rcases lt_trichotomy (keyPrice a) (keyPrice b) with h | h | h
    · exact Or.inl (Or.inl h)
    · rcases aux (keyName a).data (keyName b).data with hs | hs
      · exact Or.inl (Or.inr ⟨h, hs⟩)
      · exact Or.inr (Or.inr ⟨h.symm, hs⟩)
    · exact Or.inr (Or.inl h)⟩

instance : IsTrans Item ItemLeP :=
  ⟨by
    have aux : ∀ x y z : List Char,
        charsLe x y = true → charsLe y z = true → charsLe x z = true := by
      intro x
      induction x with
      | nil => intro y z h1 h2; rfl
      | cons a as ih =>
        intro y z h1 h2
        cases y with
        | nil => simp [charsLe] at h1
        | cons b bs =>
          cases z with
          | nil => simp [charsLe] at h2
          | cons c cs =>
            simp only [charsLe] at h1 h2 ⊢
            split_ifs at h1 h2 ⊢ <;>
              first
                | rfl
                | omega
                | exact ih bs cs h1 h2
    intro a b c hab hbc
    rcases hab with h1 | ⟨h1, hs1⟩ <;> rcases hbc with h2 | ⟨h2, hs2⟩
    · exact Or.inl (lt_trans h1 h2)
    · exact Or.inl (h2 ▸ h1)
    · exact Or.inl (h1 ▸ h2)
    · exact Or.inr ⟨h1.trans h2, aux _ _ _ hs1 hs2⟩⟩

/-- `bool(d.get("Available", True))` as used by the availability filter. -/
def availTruthy (d : Item) : Bool := availDefault d.Available

/-- `DecorPriceModel._postprocess_list` (graphs file, lines 86-95):
copy each dict (`dict(it)`), normalize it, optionally filter by
availability, and sort ascending by `(MidPrice, DecorName)`.
Python's `list.sort` and insertion sort compute the same stable sort of this
total preorder. -/
def postprocess_list (items : List Item) (only_available : Bool) : List Item :=
  let normed := items.map (fun it => normalize_item it)
  let normed2 := if only_available then normed.filter (fun d => availTruthy d) else normed
  List.insertionSort ItemLeP normed2

/-- A payload returned by `server_access.request`: a mapping, or anything
else (`None`, a scalar, a list ...). -/
inductive FetchResult where
  | dict (it : Item)
  | other (v : Val)
deriving DecidableEq

/-- `DecorPriceModel._get_focus` (identical in both files):
`if not isinstance(row, dict) or not row: raise ValueError("Decor not found")`. -/
def get_focus (fetchById : ℤ → FetchResult) (decor_id : ℤ) : Except String Item :=
  match fetchById decor_id with
  | FetchResult.dict row =>
    if row = Item.empty then Except.error "Decor not found" else Except.ok row
  | FetchResult.other _ => Except.error "Decor not found"

/-- The focus part of `DecorPriceModel.load` (graphs file, lines 149-151):
`focus = self._get_focus(decor_id); self.focus_item = self._normalize_item(focus)`. -/
def resolveFocus (fetchById : ℤ → FetchResult) (decor_id : ℤ) : Except String Item :=
  match get_focus fetchById decor_id with
  | Except.error e => Except.error e
  | Except.ok row => Except.ok (normalize_item row)

/-- The claim's "lookup returns nothing": no record (`None`), an empty
record, or a non-mapping payload. -/
def lookupNothing : FetchResult → Bool
  | FetchResult.dict it => it = Item.empty
  | FetchResult.other _ => true

/-- The loop of `_fallback_fetch_and_enrich` in the graphs file
(lines 128-137), tracking the Python variable `full` (last assigned by-id
payload).  `.error` models an uncaught exception from `int(did)`. -/
def graphs_fallback_loop (fetchById : ℤ → FetchResult) :
    List Item → Option FetchResult → Except String (Option FetchResult)
  | [], st => Except.ok st
  | row :: rest, st =>
    let did := idChain row
    if did = Val.none then graphs_fallback_loop fetchById rest st
    else
      match pyInt did with
      | Option.none => Except.error "TypeError: int() failed"
      | some n => graphs_fallback_loop fetchById rest (some (fetchById n))

/-- `DecorPriceModel._fallback_fetch_and_enrich` (graphs file, lines
119-138) applied to an already-fetched base list: the accumulator
`enriched` is never appended to, and after the loop the function returns
the variable `full` — the payload of the *last* row whose id chain
resolved.  When no row assigned `full`, `return full` raises
`UnboundLocalError`, modelled as `.error`. -/
def graphs_fallback (fetchById : ℤ → FetchResult) (base_list : List Item) :
    Except String FetchResult :=
  match graphs_fallback_loop fetchById base_list Option.none with
  | Except.error e => Except.error e
  | Except.ok Option.none => Except.error "UnboundLocalError: full"
  | Except.ok (some f) => Except.ok f

/-- The inline mid-price computation of the decor_price file's
`_fallback_fetch_and_enrich` (lines 62-81), on the raw values of
`PriceSmall`/`PriceMedium`/`PriceLarge`.  `Option.none` models an uncaught
exception; in particular the final branch is `float(p_s if p_s is not None
else p_l)`, which raises `TypeError` when both are `None`. -/
def decor_mid (p_s p_m p_l : Val) : Option ℚ :=
  if p_m ≠ Val.none then pyFloat p_m
  else if p_s ≠ Val.none ∧ p_l ≠ Val.none then
    match pyFloat p_s, pyFloat p_l with
    | some a, some b => some ((a + b) / 2)
    | _, _ => Option.none
  else pyFloat (if p_s ≠ Val.none then p_s else p_l)

/-- One record of the `enriched` list built by the decor_price file's
`_fallback_fetch_and_enrich` (lines 83-94). -/
structure Enriched where
  DecorId : ℤ
  DecorName : Val
  Category : Val
  Region : Val
  PhotoUrl : Val
  Available : Val
  PriceSmall : Val
  PriceMedium : Val
  PriceLarge : Val
  MidPrice : ℚ
deriving DecidableEq

/-- The sort key of `enriched.sort` (decor_price file, lines 92-93):
`(d["MidPrice"] if d["MidPrice"] is not None else 1e18, str(d.get("DecorName") or ""))`.
Every appended `MidPrice` is a float, so the `1e18` arm is dead. -/
def enrichedLe (a b : Enriched) : Prop :=
  a.MidPrice < b.MidPrice ∨
    (a.MidPrice = b.MidPrice ∧
      strLe (pyStr (pyOr a.DecorName (Val.str ""))) (pyStr (pyOr b.DecorName (Val.str ""))) = true)

instance : DecidableRel enrichedLe := fun _ _ =>
  inferInstanceAs (Decidable (_ ∨ _))

/-- The enrichment loop of the decor_price file's
`_fallback_fetch_and_enrich` (lines 54-90) applied to an already-fetched
base list: skip rows with no resolvable id, skip non-mapping by-id
payloads, compute the mid price, build the enriched record.
`.error` models an uncaught exception. -/
def decor_fallback_loop (fetchById : ℤ → FetchResult) :
    List Item → Except String (List Enriched)
  | [] => Except.ok []
  | row :: rest =>
    let did := idChain row
    if did = Val.none then decor_fallback_loop fetchById rest
    else
      match pyInt did with
      | Option.none => Except.error "TypeError: int() failed"
      | some n =>
        match fetchById n with
        | FetchResult.other _ => decor_fallback_loop fetchById rest
        | FetchResult.dict full =>
          match decor_mid (pyGet full.PriceSmall) (pyGet full.PriceMedium)
              (pyGet full.PriceLarge) with
          | Option.none => Except.error "TypeError: float(None)"
          | some mid =>
            match pyInt (pyGet full.DecorId) with
            | Option.none => Except.error "TypeError: int() failed on DecorId"
            | some fid =>
              match decor_fallback_loop fetchById rest with
              | Except.error e => Except.error e
              | Except.ok tail =>
                Except.ok
                  ({ DecorId := fid
                     DecorName := pyGet full.DecorName
                     Category := pyGet full.Category
                     Region := pyGet full.Region
                     PhotoUrl := pyGet full.PhotoUrl
                     Available := pyGet full.Available
                     PriceSmall := pyGet full.PriceSmall
                     PriceMedium := pyGet full.PriceMedium
                     PriceLarge := pyGet full.PriceLarge
                     MidPrice := mid } :: tail)

/-- `DecorPriceModel._fallback_fetch_and_enrich` of the decor_price file
(lines 40-94) applied to an already-fetched base list: the enrichment loop
followed by `enriched.sort(key=...)`. -/
def decor_fallback (fetchById : ℤ → FetchResult) (base_list : List Item) :
    Except String (List Enriched) :=
  match decor_fallback_loop fetchById base_list with
  | Except.error e => Except.error e
  | Except.ok enriched => Except.ok (List.insertionSort enrichedLe enriched)

/-- Record mutation model for `_postprocess_list`: the heap of dict objects
is a list indexed by allocation order.  `copyNormalize s rs` performs
`[self._normalize_item(dict(it)) for it in items]`: for each input
reference, `dict(it)` allocates a fresh copy, `_normalize_item` mutates that
fresh copy in place.  Returns the grown heap and the references of the new
list. -/
def copyNormalize (s : List Item) : List ℕ → List Item × List ℕ
  | [] => (s, [])
  | r :: rest =>
    let s1 := s ++ [normalize_item (s.getD r Item.empty)]
    ((copyNormalize s1 rest).1, s.length :: (copyNormalize s1 rest).2)

/-- The sort order on references, reading the records from heap `s`. -/
def refLe (s : List Item) (a b : ℕ) : Prop :=
  ItemLeP (s.getD a Item.empty) (s.getD b Item.empty)

instance (s : List Item) : DecidableRel (refLe s) := fun _ _ =>
  inferInstanceAs (Decidable (ItemLeP _ _))

/-- `DecorPriceModel._postprocess_list` at the heap level: copy-and-normalize
each input record, filter the fresh reference list, sort it in place.
Returns the final heap and the references of the returned list. -/
def postprocess_store (s : List Item) (refs : List ℕ) (only_available : Bool) :
    List Item × List ℕ :=
  let s1 := (copyNormalize s refs).1
  let normedRefs := (copyNormalize s refs).2
  let filtered :=
    if only_available then normedRefs.filter (fun r => availTruthy (s1.getD r Item.empty))
    else normedRefs
  (s1, List.insertionSort (refLe s1) filtered)

/-- Example item for P7: name "B", mid price 10. -/
def exB : Item :=
  { Item.empty with DecorName := some (Val.str "B"), MidPrice := some (Val.num 10) }

/-- Example item for P7: name "A", mid price 10. -/
def exA : Item :=
  { Item.empty with DecorName := some (Val.str "A"), MidPrice := some (Val.num 10) }

/-- Example item for P7: name "C", mid price 5. -/
def exC : Item :=
  { Item.empty with DecorName := some (Val.str "C"), MidPrice := some (Val.num 5) }

/-- A record carrying an id and a name but no price information at all. -/
def c2Item : Item :=
  { Item.empty with DecorId := some (Val.num 3), DecorName := some (Val.str "X") }

/-- Base row with id 1, as returned by `/DB/decors/list`. -/
def c3Row1 : Item := { Item.empty with DecorId := some (Val.num 1) }

/-- Base row with id 2, as returned by `/DB/decors/list`. -/
def c3Row2 : Item := { Item.empty with DecorId := some (Val.num 2) }

/-- Full record for id 1, as returned by `/DB/decors/get/1`. -/
def c3Full1 : Item :=
  { Item.empty with
      DecorId := some (Val.num 1)
      DecorName := some (Val.str "Arch")
      PriceMedium := some (Val.num 10) }

/-- Full record for id 2, as returned by `/DB/decors/get/2`. -/
def c3Full2 : Item :=
  { Item.empty with
      DecorId := some (Val.num 2)
      DecorName := some (Val.str "Bouquet")
      PriceMedium := some (Val.num 20) }

/-- A by-id fetch stub resolving ids 1 and 2. -/
def c3Fetch : ℤ → FetchResult := fun n =>
  if n = 1 then FetchResult.dict c3Full1
  else if n = 2 then FetchResult.dict c3Full2
  else FetchResult.other Val.none

/-- The enriched record the decor_price fallback builds for id 1. -/
def c3E1 : Enriched :=
  ⟨1, Val.str "Arch", Val.none, Val.none, Val.none, Val.none,
   Val.none, Val.num 10, Val.none, 10⟩

/-- The enriched record the decor_price fallback builds for id 2. -/
def c3E2 : Enriched :=
  ⟨2, Val.str "Bouquet", Val.none, Val.none, Val.none, Val.none,
   Val.none, Val.num 20, Val.none, 20⟩

/-- A record whose `PriceSmall` is a malformed numeric string. -/
def c8Item : Item :=
  { Item.empty with
      PriceSmall := some (Val.str "not a number")
      PriceMedium := some (Val.num 7) }

/-- A record with a falsy `DecorId` (the integer 0) and an `id` alias. -/
def c10ZeroId : Item :=
  { Item.empty with DecorId := some (Val.num 0), id := some (Val.num 7) }

/-- A record whose only id alias is the falsy `DecorId = 0`. -/
def c10ZeroOnly : Item := { Item.empty with DecorId := some (Val.num 0) }

/-- A focus record for id 5. -/
def c7Item : Item :=
  { Item.empty with
      DecorId := some (Val.num 5)
      Category := some (Val.str "Flowers")
      PriceMedium := some (Val.num 200) }

/-- A by-id fetch stub resolving only id 5. -/
def c7Fetch : ℤ → FetchResult := fun n =>
  if n = 5 then FetchResult.dict c7Item else FetchResult.other Val.none

/- ------------------------------------------------------------------ -/
/- Theorems -/
/- ------------------------------------------------------------------ -/

/-- `float(mid or 0.0)` does not change the value of a float. -/
theorem midOrZero_eq (q : ℚ) : (if q = 0 then 0 else q) = q := by
  split_ifs with h
  · exact h.symm
  · rfl

/-- Claim C1: for every catalog item, the resolved mid price — the value
`_ensure_midprice` returns and writes into `MidPrice` — equals the first
match of the spec's ordered chain: `priceMedium`; else the average of
`priceSmall` and `priceLarge` when both are present; else whichever single
one of them is present; else the pre-existing `midPrice`; else `minPrice`;
else `0.0`. -/
theorem claim_C1_midprice_precedence (it : Item) :
    (ensure_midprice it).1 = specMidPriceChain it
      ∧ (ensure_midprice it).2.MidPrice = some (Val.num (specMidPriceChain it)) := by
  have h : (ensure_midprice it).1 = specMidPriceChain it := by
    simp only [ensure_midprice, specMidPriceChain]
    rcases to_float (pyGet it.PriceMedium) with _ | m <;>
      rcases to_float (pyGet it.PriceSmall) with _ | s <;>
        rcases to_float (pyGet it.PriceLarge) with _ | l <;>
          simp only [midOrZero_eq]
  exact ⟨h, by rw [← h]; rfl⟩

/-- Reading a present key returns its value. -/
theorem pyGet_some (v : Val) : pyGet (some v) = v := rfl

/-- `_to_float` of a float is that float. -/
theorem to_float_num (q : ℚ) : to_float (Val.num q) = some q := rfl

/-- Claim C6: the value `_ensure_midprice` returns equals the value it writes
into the item's `MidPrice` field, and running `_ensure_midprice` again on the
resulting item returns the same value and leaves the item unchanged: the
once-resolved item is a fixpoint of the resolver. -/
theorem claim_C6_idempotent_writeback (it : Item) :
    (ensure_midprice it).2.MidPrice = some (Val.num (ensure_midprice it).1)
      ∧ ensure_midprice ((ensure_midprice it).2) = ensure_midprice it := by
  constructor
  · rfl
  · simp only [ensure_midprice, pyGet_some, to_float_num]
    rcases to_float (pyGet it.PriceMedium) with _ | m <;>
      rcases to_float (pyGet it.PriceSmall) with _ | s <;>
        rcases to_float (pyGet it.PriceLarge) with _ | l <;>
          simp only [midOrZero_eq]

/-- Normalization coerces `Available` with `bool(it.get("Available", True))`:
present values by truthiness, absent key to `True`. -/
theorem normalize_item_Available (it : Item) :
    (normalize_item it).Available = some (Val.bool (availDefault it.Available)) := by
  simp only [normalize_item, ensure_midprice]
  split
  · rfl
  · split <;> rfl

/-- Normalization stores `_to_float` of the raw `PriceSmall`. -/
theorem normalize_item_PriceSmall (it : Item) :
    (normalize_item it).PriceSmall = some (ofFloatOpt (to_float (pyGet it.PriceSmall))) := by
  simp only [normalize_item, ensure_midprice]
  split
  · rfl
  · split <;> rfl

/-- Normalization stores `_to_float` of the raw `PriceMedium`. -/
theorem normalize_item_PriceMedium (it : Item) :
    (normalize_item it).PriceMedium = some (ofFloatOpt (to_float (pyGet it.PriceMedium))) := by
  simp only [normalize_item, ensure_midprice]
  split
  · rfl
  · split <;> rfl

/-- Normalization stores `_to_float` of the raw `PriceLarge`. -/
theorem normalize_item_PriceLarge (it : Item) :
    (normalize_item it).PriceLarge = some (ofFloatOpt (to_float (pyGet it.PriceLarge))) := by
  simp only [normalize_item, ensure_midprice]
  split
  · rfl
  · split <;> rfl

/-- Normalization stores `_to_float` of the raw `MinPrice`. -/
theorem normalize_item_MinPrice (it : Item) :
    (normalize_item it).MinPrice = some (ofFloatOpt (to_float (pyGet it.MinPrice))) := by
  simp only [normalize_item, ensure_midprice]
  split
  · rfl
  · split <;> rfl

/-- After normalization the `MidPrice` key always holds a float. -/
theorem normalize_item_mid_num (it : Item) :
    ∃ q : ℚ, (normalize_item it).MidPrice = some (Val.num q) :=
  ⟨_, rfl⟩

/-- The id-coercion step of `_normalize_item` only ever touches the
`DecorId` key. -/
theorem normalize_step1_fields (it : Item) :
    ∃ d : Option Val,
      (if idChain it = Val.none then it
       else
         match pyInt (idChain it) with
         | some n => { it with DecorId := some (Val.num (n : ℚ)) }
         | Option.none => it)
      = { it with DecorId := d } := by
  split
  · exact ⟨it.DecorId, rfl⟩
  · split
    · exact ⟨_, rfl⟩
    · exact ⟨it.DecorId, rfl⟩

/-- When the record carries no price information at all, the normalized
`MidPrice` is `0.0`. -/
theorem normalize_item_mid_zero (it : Item)
    (h1 : it.PriceSmall = Option.none) (h2 : it.PriceMedium = Option.none)
    (h3 : it.PriceLarge = Option.none) (h4 : it.MinPrice = Option.none)
    (h5 : it.MidPrice = Option.none) :
    (normalize_item it).MidPrice = some (Val.num 0) := by
  obtain ⟨d, hd⟩ := normalize_step1_fields it
  simp only [normalize_item]
  rw [hd]
  dsimp only
  simp only [h1, h2, h3, h4, h5]
  rfl

/-- Every member of a `_postprocess_list` result is a normalized input item. -/
theorem postprocess_mem (items : List Item) (b : Bool) (d : Item)
    (h : d ∈ postprocess_list items b) : ∃ it, d = normalize_item it := by
  simp only [postprocess_list] at h
  have h2 := (List.perm_insertionSort ItemLeP _).mem_iff.mp h
  cases b with
  | true =>
    rw [if_pos rfl] at h2
    obtain ⟨hm, _⟩ := List.mem_filter.mp h2
    obtain ⟨it, _, hit⟩ := List.mem_map.mp hm
    exact ⟨it, hit.symm⟩
  | false =>
    rw [if_neg Bool.false_ne_true] at h2
    obtain ⟨it, _, hit⟩ := List.mem_map.mp h2
    exact ⟨it, hit.symm⟩

/-- Claim C4: ranking equals filter-then-sort — the ranked output is a
permutation (same multiset) of the normalized items kept by the
availability filter (all of them when `only_available` is false), it is
sorted ascending by the `(MidPrice, DecorName)` key with lexical tie-break
on the name, and the spec's P7 example (names B, A, C with mid prices
10, 10, 5) ranks as C, A, B. -/
theorem claim_C4_rank_filter_sort :
    (∀ (items : List Item) (b : Bool),
        List.Perm (postprocess_list items b)
          (if b then (items.map (fun it => normalize_item it)).filter (fun d => availTruthy d)
           else items.map (fun it => normalize_item it))
      ∧ List.Sorted ItemLeP (postprocess_list items b))
  ∧ (postprocess_list [exB, exA, exC] false).map keyName = ["C", "A", "B"] := by
  refine ⟨fun items b => ⟨?_, ?_⟩, ?_⟩
  · simp only [postprocess_list]
    exact List.perm_insertionSort ItemLeP _
  · simp only [postprocess_list]
    exact List.sorted_insertionSort ItemLeP _
  · decide

/-- Claim C5: normalization always produces a float `MidPrice` (`0.0` when
no price information exists at all) and a boolean `Available` that is `true`
whenever the raw record omits the key (`availDefault Option.none = true`),
and every item of a ranked list still satisfies the invariant. -/
theorem claim_C5_normalization_invariant :
    (∀ it : Item,
        (∃ q, (normalize_item it).MidPrice = some (Val.num q))
      ∧ (normalize_item it).Available = some (Val.bool (availDefault it.Available))
      ∧ (it.PriceSmall = Option.none → it.PriceMedium = Option.none →
          it.PriceLarge = Option.none → it.MinPrice = Option.none →
          it.MidPrice = Option.none →
          (normalize_item it).MidPrice = some (Val.num 0)))
  ∧ (∀ (items : List Item) (b : Bool) (d : Item), d ∈ postprocess_list items b →
      (∃ q, d.MidPrice = some (Val.num q)) ∧ (∃ bb, d.Available = some (Val.bool bb))) := by
  constructor
  · intro it
    exact ⟨normalize_item_mid_num it, normalize_item_Available it,
      fun h1 h2 h3 h4 h5 => normalize_item_mid_zero it h1 h2 h3 h4 h5⟩
  · intro items b d hd
    obtain ⟨it, rfl⟩ := postprocess_mem items b d hd
    exact ⟨normalize_item_mid_num it, ⟨_, normalize_item_Available it⟩⟩

/-- Witness for C5 at concrete inputs: the empty record normalizes to
`MidPrice = 0.0` and `Available = true`, and the single element of a ranked
singleton list satisfies the invariant. -/
theorem claim_C5_witness :
    (normalize_item Item.empty).MidPrice = some (Val.num 0)
  ∧ (∃ q, (normalize_item exA).MidPrice = some (Val.num q)) := by
  constructor
  · exact (claim_C5_normalization_invariant.1 Item.empty).2.2 rfl rfl rfl rfl rfl
  · exact (claim_C5_normalization_invariant.2 [exA] false (normalize_item exA)
      (by decide)).1

/-- `copyNormalize` only grows the heap — the original records stay at their
positions untouched — and every reference it returns is fresh (at or beyond
the original heap length). -/
theorem copyNormalize_heap (rs : List ℕ) : ∀ s : List Item,
    (∃ L, (copyNormalize s rs).1 = s ++ L)
  ∧ (∀ r, r ∈ (copyNormalize s rs).2 → s.length ≤ r) := by
  induction rs with
  | nil =>
    intro s
    refine ⟨⟨[], (List.append_nil s).symm⟩, ?_⟩
    intro r hr
    simp [copyNormalize] at hr
  | cons r0 rest ih =>
    intro s
    obtain ⟨⟨L, hL⟩, hmem⟩ := ih (s ++ [normalize_item (s.getD r0 Item.empty)])
    constructor
    · refine ⟨normalize_item (s.getD r0 Item.empty) :: L, ?_⟩
      show (copyNormalize (s ++ [normalize_item (s.getD r0 Item.empty)]) rest).1 = _
      rw [hL, List.append_assoc]
      rfl
    · intro r hr
      rcases List.mem_cons.mp hr with h | h
      · exact h ▸ le_refl _
      · have hfresh := hmem r h
        have hlen : s.length ≤ (s ++ [normalize_item (s.getD r0 Item.empty)]).length := by
          simp
        exact le_trans hlen hfresh

/-- Claim C9: ranking does not mutate its input — `_postprocess_list` copies
each record (`dict(it)`) before normalizing, so after it returns every input
record is unchanged at its heap position, and every reference in the
returned list is a freshly allocated copy, never one of the input records. -/
theorem claim_C9_rank_no_mutation (s : List Item) (refs : List ℕ) (b : Bool) :
    (∀ i : ℕ, i < s.length →
        (postprocess_store s refs b).1.getD i Item.empty = s.getD i Item.empty)
  ∧ (∀ r : ℕ, r ∈ (postprocess_store s refs b).2 → s.length ≤ r) := by
  obtain ⟨⟨L, hL⟩, hmem⟩ := copyNormalize_heap refs s
  constructor
  · intro i hi
    show (copyNormalize s refs).1.getD i Item.empty = _
    rw [hL]
    exact List.getD_append _ _ _ _ hi
  · intro r hr
    have hr2 : r ∈ (if b then ((copyNormalize s refs).2).filter
          (fun t => availTruthy ((copyNormalize s refs).1.getD t Item.empty))
        else (copyNormalize s refs).2) :=
      (List.perm_insertionSort _ _).mem_iff.mp hr
    cases b with
    | true =>
      rw [if_pos rfl] at hr2
      exact hmem r (List.mem_filter.mp hr2).1
    | false =>
      rw [if_neg Bool.false_ne_true] at hr2
      exact hmem r hr2

/-- Witness for C9 at a concrete heap: the input record at position 0 is
unchanged after ranking, and the single returned reference is fresh. -/
theorem claim_C9_witness :
    (postprocess_store [exA] [0] false).1.getD 0 Item.empty = [exA].getD 0 Item.empty
  ∧ [exA].length ≤ 1 := by
  constructor
  · exact (claim_C9_rank_no_mutation [exA] [0] false).1 0 (by decide)
  · exact (claim_C9_rank_no_mutation [exA] [0] false).2 1 (by decide)

/-- Claim C7: focus resolution raises "Decor not found" exactly when the
by-id lookup returns nothing (a non-mapping payload — including `None` — or
an empty record); otherwise it returns the fetched record normalized, which
therefore satisfies the post-normalization contract: a float `MidPrice` and
a boolean `Available`. -/
theorem claim_C7_focus_resolution (fetchById : ℤ → FetchResult) (i : ℤ) :
    ((∃ e, resolveFocus fetchById i = Except.error e) ↔ lookupNothing (fetchById i) = true)
  ∧ (∀ row : Item, fetchById i = FetchResult.dict row → row ≠ Item.empty →
      resolveFocus fetchById i = Except.ok (normalize_item row))
  ∧ (∀ d : Item, resolveFocus fetchById i = Except.ok d →
      (∃ q, d.MidPrice = some (Val.num q)) ∧ (∃ b, d.Available = some (Val.bool b))) := by
  refine ⟨?_, ?_, ?_⟩
  · cases hf : fetchById i with
    | dict row =>
      by_cases hrow : row = Item.empty
      · subst hrow
        simp [resolveFocus, get_focus, lookupNothing, hf]
      · simp [resolveFocus, get_focus, lookupNothing, hf, hrow]
    | other v =>
      simp [resolveFocus, get_focus, lookupNothing, hf]
  · intro row hrow hne
    simp [resolveFocus, get_focus, hrow, hne]
  · intro d hd
    simp only [resolveFocus, get_focus] at hd
    cases hf : fetchById i with
    | dict row =>
      rw [hf] at hd
      by_cases hrow : row = Item.empty
      · simp [hrow] at hd
      · simp only [if_neg hrow] at hd
        cases hd
        exact ⟨normalize_item_mid_num row, ⟨_, normalize_item_Available row⟩⟩
    | other v =>
      rw [hf] at hd
      cases hd

/-- Witness for C7 at a concrete fetch stub: id 5 resolves to its record
normalized and satisfies the contract; id 9 (not found) errors. -/
theorem claim_C7_witness :
    resolveFocus c7Fetch 5 = Except.ok (normalize_item c7Item)
  ∧ (∃ q, (normalize_item c7Item).MidPrice = some (Val.num q))
  ∧ (∃ e, resolveFocus c7Fetch 9 = Except.error e) := by
  have h1 := (claim_C7_focus_resolution c7Fetch 5).2.1 c7Item (by decide) (by decide)
  refine ⟨h1, ((claim_C7_focus_resolution c7Fetch 5).2.2 _ h1).1, ?_⟩
  exact (claim_C7_focus_resolution c7Fetch 9).1.mpr (by decide)

/-- Claim C2 (code bug in the decor_price variant): on an item with no
price information at all, the decor_price file's inline mid computation
reaches `float(p_s if p_s is not None else p_l)` with both `None` and
raises `TypeError` (modelled `Option.none`), while the graphs
`_ensure_midprice` — and the claim — return the float `0.0` there. -/
theorem claim_C2_totality_bug :
    decor_mid (pyGet c2Item.PriceSmall) (pyGet c2Item.PriceMedium) (pyGet c2Item.PriceLarge)
        = Option.none
  ∧ (ensure_midprice c2Item).1 = 0 := by
  constructor <;> decide

/-- Claim C3 (code bug in the graphs variant): on the same fetched data —
two base rows with resolvable ids, both by-id fetches returning mappings —
the decor_price `_fallback_fetch_and_enrich` returns the accumulated list of
two enriched records, while the graphs variant returns only the last fetched
record `full` (a single mapping, not a list): its `enriched` accumulator is
never appended to. -/
theorem claim_C3_fallback_returns_single :
    graphs_fallback c3Fetch [c3Row1, c3Row2] = Except.ok (FetchResult.dict c3Full2)
  ∧ decor_fallback c3Fetch [c3Row1, c3Row2] = Except.ok [c3E1, c3E2] := by
  constructor <;> rfl

/-- Claim C8: numeric coercion never raises — `_normalize_item` stores, for
each of the price fields, `_to_float` of the raw value: the parsed float
when conversion succeeds, `None` otherwise (also for malformed strings such
as "not a number"), and a malformed field does not reject the rest of the
record: the other fields are still coerced and the mid price still
resolved.  (The coerced `midPrice` is subsequently overwritten by the
resolver, claim C1.) -/
theorem claim_C8_coercion_degrades_to_none :
    (∀ it : Item,
        (normalize_item it).PriceSmall = some (ofFloatOpt (to_float (pyGet it.PriceSmall)))
      ∧ (normalize_item it).PriceMedium = some (ofFloatOpt (to_float (pyGet it.PriceMedium)))
      ∧ (normalize_item it).PriceLarge = some (ofFloatOpt (to_float (pyGet it.PriceLarge)))
      ∧ (normalize_item it).MinPrice = some (ofFloatOpt (to_float (pyGet it.MinPrice))))
  ∧ to_float (Val.str "not a number") = Option.none
  ∧ to_float (Val.str "12.5") = some (25 / 2)
  ∧ (normalize_item c8Item).PriceSmall = some Val.none
  ∧ (normalize_item c8Item).MidPrice = some (Val.num 7) := by
  refine ⟨fun it => ⟨normalize_item_PriceSmall it, normalize_item_PriceMedium it,
    normalize_item_PriceLarge it, normalize_item_MinPrice it⟩, ?_, ?_, ?_, ?_⟩
  · decide
  · show some (1 * (((12 : ℕ) : ℚ) + ((5 : ℕ) : ℚ) / (10 : ℚ) ^ (1 : ℕ))) = some ((25 : ℚ) / 2)
    norm_num
  · decide
  · decide

/-- Claim C10: the truthiness chain `DecorId or decorId or id` treats a
present-but-falsy `DecorId` (such as the integer 0) as absent: the
identifier falls through to the next alias (so `DecorId=0, id=7` extracts
7, also in `_normalize_item`), and a record whose only alias is `DecorId=0`
resolves to no id at all and is skipped by the fallback enrichment loop. -/
theorem claim_C10_falsy_id_fallthrough :
    (∀ it : Item, truthy (pyGet it.DecorId) = false →
        idChain it = pyOr (pyGet it.decorId) (pyGet it.id))
  ∧ idChain c10ZeroId = Val.num 7
  ∧ (normalize_item c10ZeroId).DecorId = some (Val.num 7)
  ∧ idChain c10ZeroOnly = Val.none
  ∧ decor_fallback c3Fetch [c10ZeroOnly] = Except.ok []
  ∧ graphs_fallback c3Fetch [c10ZeroOnly] = Except.error "UnboundLocalError: full" := by
  refine ⟨?_, ?_, ?_, ?_, ?_, ?_⟩
  · intro it h
    simp [idChain, pyOr, h]
  · decide
  · decide
  · decide
  · rfl
  · rfl

/-- Witness for C10: the falsy-`DecorId` record falls through to the later
aliases of the chain. -/
theorem claim_C10_witness :
    idChain c10ZeroOnly = pyOr (pyGet c10ZeroOnly.decorId) (pyGet c10ZeroOnly.id) :=
  claim_C10_falsy_id_fallthrough.1 c10ZeroOnly (by decide)
